import Mathlib

/-!
Shallow embedding of the hand-tracking interaction engine of the
leapmotion-game repository.

Source files embedded:
  * core/constants.py        — fixed configuration constants
  * core/hand_tracker.py     — HandData, HandTracker, TrackingListener
  * core/ui_components.py    — AnimatedButton (update / is_hand_activated)
  * main_menu.py             — GameCard (update / is_hand_activated) and the
                               per-tick pointer integration in MainMenu.update

Numeric conventions: Python floats are embedded as exact rationals (every
literal appearing in the source — 0.016, 0.1, 0.12, 0.05, 0.4 — is finitely
representable and all accumulated values stay far from the decision
boundaries relative to double rounding error, so the rational model agrees
with the float execution at every comparison the theorems mention).
Python `int(x)` truncates toward zero and is embedded as `pyInt`.
-/

namespace LeapGame

/-- Python `int(x)` conversion: truncation toward zero of a rational. -/
def pyInt (q : ℚ) : ℤ := q.num.tdiv q.den

-- core/constants.py

def WINDOW_WIDTH : ℤ := 1200

def WINDOW_HEIGHT : ℤ := 800

def HAND_PINCH_THRESHOLD : ℚ := 30

def HAND_HOVER_TIME_THRESHOLD : ℚ := 1

-- core/hand_tracker.py — data model

/-- A device-space 3D point (palm position or fingertip joint). -/
structure Vec3 where
  x : ℚ
  y : ℚ
  z : ℚ
deriving DecidableEq

/-- The slice of a tracked hand that `TrackingListener.on_tracking_event`
reads: the palm position (`hand.palm.position`) and, for each digit, the
`distal.next_joint` point (the only joint the listener accesses). -/
structure Hand where
  palm : Vec3
  digits : List Vec3
deriving DecidableEq

/-- The shared snapshot record (dataclass `HandData`), field defaults as in
the source. -/
structure HandData where
  x : ℤ := 400
  y : ℤ := 400
  pinching : Bool := false
  active : Bool := false
  hands_count : ℕ := 0
deriving DecidableEq

/-- Squared Euclidean distance in device space between two joints. -/
def sqDist (t i : Vec3) : ℚ :=
  (t.x - i.x) ^ 2 + (t.y - i.y) ^ 2 + (t.z - i.z) ^ 2

/-- Pinch classification of `on_tracking_event` lines 98-107: if at least
two digits are reported, compare the thumb-tip/index-tip Euclidean distance
against `HAND_PINCH_THRESHOLD`; otherwise pinching is false.  The source
computes `distance = sq ** 0.5` and tests `distance < 30`; for a nonnegative
radicand this is equivalent to `sq < 30 ^ 2`, which is the executable form
used here (theorem `C7_pinch_strict` proves the square-root equivalence). -/
def pinchClassify (digits : List Vec3) : Bool :=
  match digits with
  | thumb :: index :: _ => decide (sqDist thumb index < HAND_PINCH_THRESHOLD ^ 2)
  | _ => false

/-- `TrackingListener.on_tracking_event` (lines 80-111): one device callback
updating the shared `HandData` snapshot.  `hands_count` and `active` are set
unconditionally; with at least one hand the palm position is remapped by the
fixed linear scale and clamped into the window, and the pinch flag is
classified; with zero hands the pinch flag is forced false and x/y retained. -/
def on_tracking_event (d : HandData) (hands : List Hand) : HandData :=
  let d1 : HandData := { d with hands_count := hands.length, active := true }
  match hands with
  | [] => { d1 with pinching := false }
  | hand :: _ =>
      let xr : ℤ := pyInt ((hand.palm.x + 200) * ((WINDOW_WIDTH : ℚ) / 400))
      let yr : ℤ := pyInt ((400 - hand.palm.y) * ((WINDOW_HEIGHT : ℚ) / 400))
      let xc : ℤ := max 0 (min WINDOW_WIDTH xr)
      let yc : ℤ := max 0 (min WINDOW_HEIGHT yr)
      { d1 with x := xc, y := yc, pinching := pinchClassify hand.digits }

-- core/ui_components.py — AnimatedButton (and shared geometry helpers)

/-- A pygame rectangle (x, y, width, height). -/
structure Rect where
  x : ℤ
  y : ℤ
  w : ℤ
  h : ℤ
deriving DecidableEq

/-- `pygame.Rect.collidepoint`: a point is inside the rectangle when it lies
within it, left/top edges inclusive and right/bottom edges exclusive. -/
def Rect.collidepoint (r : Rect) (p : ℤ × ℤ) : Bool :=
  decide (r.x ≤ p.1 ∧ p.1 < r.x + r.w ∧ r.y ≤ p.2 ∧ p.2 < r.y + r.h)

/-- An RGB color triple. -/
structure RGB where
  r : ℤ
  g : ℤ
  b : ℤ
deriving DecidableEq

/-- The color interpolation of `AnimatedButton.update` lines 65-69:
`int(c + (hc - c) * progress)` per channel, with Python truncation. -/
def colorLerp (c hc : RGB) (p : ℚ) : RGB :=
  ⟨pyInt ((c.r : ℚ) + ((hc.r : ℚ) - (c.r : ℚ)) * p),
   pyInt ((c.g : ℚ) + ((hc.g : ℚ) - (c.g : ℚ)) * p),
   pyInt ((c.b : ℚ) + ((hc.b : ℚ) - (c.b : ℚ)) * p)⟩

/-- The hand-activation block shared verbatim by `AnimatedButton.update`
(ui_components.py lines 47-57) and `GameCard.update` (main_menu.py lines
100-110): given whether the hand is hovering and pinching, and the current
`(hand_hover_time, hand_activated)` pair, return the updated pair.
While hovering, a pinch latches the activation immediately (hover time
untouched); otherwise the accumulator grows by 0.016 s and latches the
activation when it reaches the threshold; while not hovering both reset. -/
def activationStep (hand_hovered hand_pinching : Bool) (t : ℚ) (a : Bool) :
    ℚ × Bool :=
  if hand_hovered then
    if hand_pinching then (t, true)
    else
      let t1 := t + 0.016
      if HAND_HOVER_TIME_THRESHOLD ≤ t1 then (t1, true) else (t1, a)
  else (0, false)

/-- `AnimatedButton` state: the fields `update` / `is_hand_activated` read or
write (the constant `text` string is presentation-only and omitted). -/
structure AnimatedButton where
  rect : Rect
  color : RGB
  hover_color : RGB
  current_color : RGB
  hovered : Bool
  animation_progress : ℚ
  hand_hover_time : ℚ
  hand_activated : Bool
deriving DecidableEq

/-- `AnimatedButton.update` (lines 34-69): hover detection from mouse and
optional hand position, the hand-activation block, the smooth color
transition of `animation_progress`, and the color interpolation.  A Python
position tuple is always truthy, so `if hand_pos:` is the `Option` match. -/
def AnimatedButton.update (b : AnimatedButton) (mouse_pos : ℤ × ℤ)
    (hand_pos : Option (ℤ × ℤ)) (hand_pinching : Bool) : AnimatedButton :=
  let mouse_hovered := b.rect.collidepoint mouse_pos
  let hand_hovered :=
    match hand_pos with
    | some p => b.rect.collidepoint p
    | none => false
  let hovered := mouse_hovered || hand_hovered
  let ta := activationStep hand_hovered hand_pinching b.hand_hover_time b.hand_activated
  let progress :=
    if hovered = true ∧ b.animation_progress < 1 then
      min 1 (b.animation_progress + 0.1)
    else if hovered = false ∧ 0 < b.animation_progress then
      max 0 (b.animation_progress - 0.1)
    else b.animation_progress
  { b with
    hovered := hovered
    hand_hover_time := ta.1
    hand_activated := ta.2
    animation_progress := progress
    current_color := colorLerp b.color b.hover_color progress }

/-- `AnimatedButton.is_hand_activated` (lines 90-95), the consume-once query
(`takeActivation` of the spec): returns the latched flag and, when it was
set, resets both the flag and the hover accumulator.  Modelled in state
passing style: the result pairs the post-call state with the returned Bool. -/
def AnimatedButton.is_hand_activated (b : AnimatedButton) :
    AnimatedButton × Bool :=
  if b.hand_activated then
    ({ b with hand_activated := false, hand_hover_time := 0 }, true)
  else (b, false)

/-- One render tick of a consumer driving an `AnimatedButton`: call `update`
with the tick's pointer arguments, then consume via `is_hand_activated`. -/
def buttonTick (b : AnimatedButton) (mouse_pos : ℤ × ℤ)
    (hand_pos : Option (ℤ × ℤ)) (hand_pinching : Bool) :
    AnimatedButton × Bool :=
  (AnimatedButton.update b mouse_pos hand_pos hand_pinching).is_hand_activated

/-- Run `n` consecutive ticks with fixed pointer arguments, collecting the
value `is_hand_activated` returned on each tick, in order. -/
def runButton : ℕ → AnimatedButton → ℤ × ℤ → Option (ℤ × ℤ) → Bool →
    AnimatedButton × List Bool
  | 0, b, _, _, _ => (b, [])
  | n + 1, b, m, hp, pin =>
      let r := buttonTick b m hp pin
      let s := runButton n r.1 m hp pin
      (s.1, r.2 :: s.2)

-- main_menu.py — GameCard

/-- `GameCard` state: the fields `update` / `is_hand_activated` read or write
(the icon surface and game-info dictionary are presentation-only). -/
structure GameCard where
  rect : Rect
  hovered : Bool
  animation_progress : ℚ
  hand_hover_time : ℚ
  hand_activated : Bool
  selected : Bool
  base_color : RGB
  hover_color : RGB
  current_color : RGB
  glow_intensity : ℚ
  card_scale : ℚ
  shadow_offset : ℤ
  border_glow : ℚ
deriving DecidableEq

/-- `GameCard.update` (main_menu.py lines 91-126): hover detection, the same
hand-activation block as `AnimatedButton`, the exponential-approach
animation, the derived visual effects, and the blended color (at 0.4 of the
animation progress). -/
def GameCard.update (c : GameCard) (mouse_pos : ℤ × ℤ)
    (hand_pos : Option (ℤ × ℤ)) (hand_pinching : Bool) : GameCard :=
  let mouse_hovered := c.rect.collidepoint mouse_pos
  let hand_hovered :=
    match hand_pos with
    | some p => c.rect.collidepoint p
    | none => false
  let hovered := mouse_hovered || hand_hovered
  let ta := activationStep hand_hovered hand_pinching c.hand_hover_time c.hand_activated
  let target : ℚ := if hovered then 1.0 else 0.0
  let progress := c.animation_progress + (target - c.animation_progress) * 0.12
  { c with
    hovered := hovered
    hand_hover_time := ta.1
    hand_activated := ta.2
    animation_progress := progress
    card_scale := 1.0 + progress * 0.05
    glow_intensity := progress * 255
    border_glow := progress * 100
    current_color := colorLerp c.base_color c.hover_color (progress * 0.4) }

/-- `GameCard.is_hand_activated` (main_menu.py lines 273-278), identical
consume-once semantics to the button's. -/
def GameCard.is_hand_activated (c : GameCard) : GameCard × Bool :=
  if c.hand_activated then
    ({ c with hand_activated := false, hand_hover_time := 0 }, true)
  else (c, false)

-- main_menu.py — the per-tick pointer integration of MainMenu.update

/-- The argument triple `MainMenu.update` (lines 421-431) hands to every
`GameCard.update` call on one render tick. -/
structure FrameArgs where
  mouse_pos : ℤ × ℤ
  hand_pos : Option (ℤ × ℤ)
  hand_pinching : Bool
deriving DecidableEq

/-- The integration step of `MainMenu.update`: read the shared snapshot, use
the hand position only when `active` and `hands_count > 0` (otherwise None),
and pass the snapshot's `pinching` flag through unchanged. -/
def integrateFrame (hand_data : HandData) (mouse_pos : ℤ × ℤ) : FrameArgs :=
  { mouse_pos := mouse_pos
    hand_pos :=
      if hand_data.active && decide (0 < hand_data.hands_count) then
        some (hand_data.x, hand_data.y)
      else none
    hand_pinching := hand_data.pinching }

-- core/hand_tracker.py — HandTracker lifecycle and the acquisition loop

/-- `HandTracker` lifecycle state: the `running` flag, the `thread` attribute
(referencing the most recently created thread object, by id), and the count
of acquisition threads spawned so far (each `threading.Thread(...).start()`
creates a fresh one; a spawned thread stays alive while `running` holds). -/
structure HandTracker where
  running : Bool := false
  thread : Option ℕ := none
  spawned : ℕ := 0
deriving DecidableEq

/-- `HandTracker.start` (lines 30-34): set `running`, create a new tracking
thread and start it.  Each call spawns one more thread. -/
def HandTracker.start (t : HandTracker) : HandTracker :=
  { running := true, thread := some t.spawned, spawned := t.spawned + 1 }

/-- `HandTracker.stop` (lines 36-40): clear `running`; the bounded join does
not change the tracker's own state. -/
def HandTracker.stop (t : HandTracker) : HandTracker :=
  { t with running := false }

/-- What the acquisition thread experiences while the bridge is open: either
a tracking callback delivering a list of hands, or an exception being raised
(carrying its message). -/
inductive LoopEvent where
  | tracking (hands : List Hand)
  | raise (msg : String)
deriving DecidableEq

/-- `HandTracker._tracking_loop` (lines 42-61) restricted to its effect on
the shared snapshot: callbacks are applied in order; the first raised
exception escapes the `with` block, is caught by the `except` clause (which
only prints), and the function returns normally — the loop never reopens the
connection, processes no further events, and leaves the snapshot exactly as
the last successful callback published it.  Totality of this function is the
no-crash clean-exit behaviour. -/
def tracking_loop (d : HandData) : List LoopEvent → HandData
  | [] => d
  | LoopEvent.tracking hs :: rest => tracking_loop (on_tracking_event d hs) rest
  | LoopEvent.raise _ :: _ => d

-- core/hand_tracker.py — the write trace of one tracking callback

/-- One field-level mutation of the shared `HandData` record, as performed by
the assignment statements of `on_tracking_event`. -/
inductive FieldWrite where
  | handsCount (n : ℕ)
  | active (b : Bool)
  | x (v : ℤ)
  | y (v : ℤ)
  | pinching (b : Bool)
deriving DecidableEq

/-- Apply one field write to the shared record. -/
def applyWrite (d : HandData) : FieldWrite → HandData
  | FieldWrite.handsCount n => { d with hands_count := n }
  | FieldWrite.active b => { d with active := b }
  | FieldWrite.x v => { d with x := v }
  | FieldWrite.y v => { d with y := v }
  | FieldWrite.pinching b => { d with pinching := b }

/-- The exact sequence of field writes `on_tracking_event` performs on the
shared record, in source order: `hands_count` (line 83), `active` (84), and
with at least one hand the remapped `x` (91), remapped `y` (92), clamped `x`
(95), clamped `y` (96) and `pinching` (105/107); with zero hands only
`pinching := false` (109).  Every write is an in-place field mutation of the
shared dataclass, visible to a concurrent reader as soon as it happens. -/
def eventWrites (hands : List Hand) : List FieldWrite :=
  match hands with
  | [] => [FieldWrite.handsCount 0, FieldWrite.active true,
           FieldWrite.pinching false]
  | hand :: rest =>
      let xr : ℤ := pyInt ((hand.palm.x + 200) * ((WINDOW_WIDTH : ℚ) / 400))
      let yr : ℤ := pyInt ((400 - hand.palm.y) * ((WINDOW_HEIGHT : ℚ) / 400))
      [FieldWrite.handsCount (hand :: rest).length, FieldWrite.active true,
       FieldWrite.x xr, FieldWrite.y yr,
       FieldWrite.x (max 0 (min WINDOW_WIDTH xr)),
       FieldWrite.y (max 0 (min WINDOW_HEIGHT yr)),
       FieldWrite.pinching (pinchClassify hand.digits)]

/-- The state a concurrent reader observes if it reads the shared record
after the first `k` field writes of one callback have landed. -/
def observeAfter (d : HandData) (hands : List Hand) (k : ℕ) : HandData :=
  ((eventWrites hands).take k).foldl applyWrite d

-- Concrete fixtures used by the counterexample and witness theorems.

/-- A button at the top-left corner, 100×100, with the menu's blue colors. -/
def btn0 : AnimatedButton :=
  { rect := ⟨0, 0, 100, 100⟩
    color := ⟨64, 128, 255⟩
    hover_color := ⟨32, 64, 200⟩
    current_color := ⟨64, 128, 255⟩
    hovered := false
    animation_progress := 0
    hand_hover_time := 0
    hand_activated := false }

/-- A game card at the top-left corner, 300×220, with the menu's colors. -/
def card0 : GameCard :=
  { rect := ⟨0, 0, 300, 220⟩
    hovered := false
    animation_progress := 0
    hand_hover_time := 0
    hand_activated := false
    selected := false
    base_color := ⟨30, 30, 35⟩
    hover_color := ⟨64, 128, 255⟩
    current_color := ⟨30, 30, 35⟩
    glow_intensity := 0
    card_scale := 1
    shadow_offset := 5
    border_glow := 0 }

/-- A stale snapshot: tracking no longer active but the last published
`pinching` still true. -/
def staleData : HandData :=
  { x := 100, y := 100, pinching := true, active := false, hands_count := 1 }

/-- A hand with palm at the device-space point that maps to the right edge
of the screen, reporting no digits. -/
def handRightEdge : Hand := { palm := ⟨200, 0, 0⟩, digits := [] }

/-- A snapshot as left by an earlier two-hand callback: pointer at the
top-left corner, mid-pinch. -/
def beforeData : HandData :=
  { x := 0, y := 0, pinching := true, active := true, hands_count := 2 }

-- Helper lemmas

/-- The dwell accumulator, after m ticks of 0.016 s, reaches the 1.0 s
threshold exactly when 63 ≤ m (62 · 0.016 = 0.992 < 1 ≤ 1.008 = 63 · 0.016). -/
theorem dwell_fire_iff (m : ℕ) : ((1 : ℚ) ≤ (m : ℚ) * 0.016) ↔ 63 ≤ m := by
  have h : (0.016 : ℚ) = 2 / 125 := by norm_num
  rw [h]
  constructor
  · intro hle
    by_contra hn
    push_neg at hn
    have hm : (m : ℚ) ≤ 62 := by exact_mod_cast Nat.le_of_lt_succ hn
    nlinarith
  · intro hm
    have hm63 : (63 : ℚ) ≤ (m : ℚ) := by exact_mod_cast hm
    nlinarith

/-- While hovered with the pinch held, every update-then-consume tick
returns true, and the tick leaves the bounds rectangle unchanged. -/
theorem buttonTick_pinch_fires (b : AnimatedButton) (m hp : ℤ × ℤ)
    (hin : b.rect.collidepoint hp = true) :
    (buttonTick b m (some hp) true).2 = true ∧
    (buttonTick b m (some hp) true).1.rect = b.rect := by
  constructor <;>
    simp [buttonTick, AnimatedButton.update, AnimatedButton.is_hand_activated,
      activationStep, hin]

/-- One hovered, non-pinching, update-then-consume tick from an unlatched
state: it returns true exactly when the grown accumulator reaches the
threshold, leaves the activation flag unlatched, sets the accumulator to the
grown value (or zero when it fired), and keeps the bounds rectangle. -/
theorem buttonTick_dwell (b : AnimatedButton) (m hp : ℤ × ℤ)
    (hin : b.rect.collidepoint hp = true) (ha : b.hand_activated = false) :
    (buttonTick b m (some hp) false).2
        = decide ((1 : ℚ) ≤ b.hand_hover_time + 0.016) ∧
    (buttonTick b m (some hp) false).1.hand_activated = false ∧
    (buttonTick b m (some hp) false).1.hand_hover_time
        = (if (1 : ℚ) ≤ b.hand_hover_time + 0.016 then 0
           else b.hand_hover_time + 0.016) ∧
    (buttonTick b m (some hp) false).1.rect = b.rect := by
  by_cases hf : (1 : ℚ) ≤ b.hand_hover_time + 0.016 <;>
    simp [buttonTick, AnimatedButton.update, AnimatedButton.is_hand_activated,
      activationStep, HAND_HOVER_TIME_THRESHOLD, hin, ha, hf]

-- Claim theorems

/-- C1 (counterexample): with the pointer inside the button's bounds and the
pinch held for 10 consecutive update-then-consume ticks, `is_hand_activated`
returns true on every one of the 10 ticks — not on exactly one of them. -/
theorem C1_counterexample :
    (runButton 10 btn0 (500, 500) (some (50, 50)) true).2
        = List.replicate 10 true ∧
    (runButton 10 btn0 (500, 500) (some (50, 50)) true).2.count true ≠ 1 := by
  decide

/-- C1 (amended): for every Control whose update is called with the pointer
inside its bounds and pinching true on n consecutive ticks, with
`is_hand_activated` consumed after each update, the consume call returns
true on every tick of the span: a continuously held pinch re-fires one
activation per tick, because update re-latches `hand_activated` each tick. -/
theorem C1_amended (m hp : ℤ × ℤ) (n : ℕ) :
    ∀ b : AnimatedButton, b.rect.collidepoint hp = true →
    (runButton n b m (some hp) true).2 = List.replicate n true := by
  induction n with
  | zero => intro b _; rfl
  | succ n ih =>
      intro b hin
      obtain ⟨h1, h2⟩ := buttonTick_pinch_fires b m hp hin
      have hin2 : (buttonTick b m (some hp) true).1.rect.collidepoint hp = true := by
        rw [h2]; exact hin
      simp [runButton, h1, ih _ hin2, List.replicate_succ]

/-- C1 (witness): the amended claim evaluated at the concrete fixture. -/
theorem C1_witness :
    btn0.rect.collidepoint (50, 50) = true ∧
    (runButton 10 btn0 (500, 500) (some (50, 50)) true).2
        = List.replicate 10 true :=
  ⟨by decide, C1_amended (500, 500) (50, 50) 10 btn0 (by decide)⟩

/-- The closed form of a continuous inside-bounds non-pinching hover run:
starting from an unlatched state whose accumulator holds j ticks (j < 63),
tick k of the run returns true exactly when j + k + 1 is a multiple of 63
(the accumulator first reaches the 1.0 s threshold, is reset by the
consuming read, and refills). -/
theorem runButton_dwell_formula (m hp : ℤ × ℤ) (n : ℕ) :
    ∀ (b : AnimatedButton) (j : ℕ), j < 63 →
    b.rect.collidepoint hp = true →
    b.hand_hover_time = (j : ℚ) * 0.016 →
    b.hand_activated = false →
    (runButton n b m (some hp) false).2
      = (List.range n).map (fun k => decide ((j + k + 1) % 63 = 0)) := by
  induction n with
  | zero => intro b j _ _ _ _; rfl
  | succ n ih =>
      intro b j hj hin ht ha
      obtain ⟨h1, h2, h3, h4⟩ := buttonTick_dwell b m hp hin ha
      have hsum : b.hand_hover_time + 0.016 = ((j + 1 : ℕ) : ℚ) * 0.016 := by
        rw [ht]; push_cast; ring
      have hfire_iff : ((1 : ℚ) ≤ b.hand_hover_time + 0.016) ↔ (j + 1) % 63 = 0 := by
        rw [hsum, dwell_fire_iff]; omega
      have hout : (buttonTick b m (some hp) false).2 = decide ((j + 1) % 63 = 0) := by
        rw [h1]; exact decide_eq_decide.mpr hfire_iff
      have hin2 : (buttonTick b m (some hp) false).1.rect.collidepoint hp = true := by
        rw [h4]; exact hin
      have ht2 : (buttonTick b m (some hp) false).1.hand_hover_time
          = (((j + 1) % 63 : ℕ) : ℚ) * 0.016 := by
        rw [h3]
        by_cases hf : (1 : ℚ) ≤ b.hand_hover_time + 0.016
        · have h0 : (j + 1) % 63 = 0 := hfire_iff.mp hf
          simp [hf, h0]
        · have hne : (j + 1) % 63 = j + 1 := by
            have : ¬ 63 ≤ j + 1 := fun hc => by
              exact hf (hsum ▸ (dwell_fire_iff (j + 1)).mpr hc)
            omega
          rw [if_neg hf, hsum, hne]
      have htail := ih (buttonTick b m (some hp) false).1 ((j + 1) % 63)
        (by omega) hin2 ht2 h2
      have hshift : (fun k => decide (((j + 1) % 63 + k + 1) % 63 = 0))
          = ((fun k => decide ((j + k + 1) % 63 = 0)) ∘ Nat.succ) := by
        funext k
        exact decide_eq_decide.mpr (by omega)
      simp only [runButton, hout, htail, hshift, List.range_succ_eq_map,
        List.map_cons, List.map_map]

/-- C2 (counterexample): with the pointer continuously inside bounds and
pinching false for 126 consecutive update-then-consume ticks, the consume
call returns true twice — on tick 63, where the accumulated hover time
first reaches 1.0 s, and again on tick 126 — not exactly once for the whole
continuous hover episode. -/
theorem C2_counterexample :
    (runButton 126 btn0 (500, 500) (some (50, 50)) false).2.count true = 2 ∧
    (runButton 126 btn0 (500, 500) (some (50, 50)) false).2.getD 62 false = true ∧
    (runButton 126 btn0 (500, 500) (some (50, 50)) false).2.getD 125 false = true := by
  have h := runButton_dwell_formula (500, 500) (50, 50) 126 btn0 0 (by decide)
    (by decide) (by norm_num [btn0]) (by decide)
  rw [h]
  decide

/-- C2 (amended): starting from a fresh unlatched state, a continuous
inside-bounds non-pinching hover with `is_hand_activated` consumed each
tick returns true exactly on the ticks that are multiples of 63 (63 ticks ·
0.016 s = 1.008 s ≥ 1.0 s): the first activation fires on the first tick
where the accumulated hover reaches 1.0 s, and — because the consuming read
resets the accumulator — it re-fires after every further 63 ticks of the
same hover episode, rather than staying false until the pointer exits and
re-enters. -/
theorem C2_amended (m hp : ℤ × ℤ) (n : ℕ) :
    ∀ (b : AnimatedButton) (j : ℕ), j < 63 →
    b.rect.collidepoint hp = true →
    b.hand_hover_time = (j : ℚ) * 0.016 →
    b.hand_activated = false →
    (runButton n b m (some hp) false).2
      = (List.range n).map (fun k => decide ((j + k + 1) % 63 = 0)) :=
  runButton_dwell_formula m hp n

/-- C2 (witness): the amended claim evaluated over 126 ticks at the
concrete fixture, predicting activations exactly at ticks 63 and 126. -/
theorem C2_witness :
    (0 < 63 ∧ btn0.rect.collidepoint (50, 50) = true ∧
      btn0.hand_hover_time = ((0 : ℕ) : ℚ) * 0.016 ∧
      btn0.hand_activated = false) ∧
    (runButton 126 btn0 (500, 500) (some (50, 50)) false).2
      = (List.range 126).map (fun k => decide ((0 + k + 1) % 63 = 0)) :=
  ⟨⟨by decide, by decide, by norm_num [btn0], by decide⟩,
    C2_amended (500, 500) (50, 50) 126 btn0 0 (by decide) (by decide)
      (by norm_num [btn0]) (by decide)⟩

/-- C3 (counterexample): on a tick where the shared snapshot has
active=false, the pinching value handed to the cards is the stale true —
`MainMenu.update` does not force it to false. -/
theorem C3_counterexample :
    ¬ ((integrateFrame staleData (0, 0)).hand_pinching = false) := by decide

/-- C3 (amended): on every tick where the shared snapshot has active=false
or handCount=0, the hand position handed to the cards is None — the mouse
position is the fallback pointer — while the stale pinching flag is passed
through unchanged; the flag is nevertheless harmless, because a card updated
with hand position None ends the tick with its activation flag false and its
hover accumulator zero. -/
theorem C3_amended (d : HandData) (m : ℤ × ℤ)
    (h : d.active = false ∨ d.hands_count = 0) :
    (integrateFrame d m).hand_pos = none ∧
    (integrateFrame d m).hand_pinching = d.pinching ∧
    ∀ c : GameCard,
      (GameCard.update c m (integrateFrame d m).hand_pos
          (integrateFrame d m).hand_pinching).hand_activated = false ∧
      (GameCard.update c m (integrateFrame d m).hand_pos
          (integrateFrame d m).hand_pinching).hand_hover_time = 0 := by
  have hp : (integrateFrame d m).hand_pos = none := by
    rcases h with h | h
    · simp [integrateFrame, h]
    · simp [integrateFrame, h]
  refine ⟨hp, rfl, ?_⟩
  intro c
  rw [hp]
  exact ⟨rfl, rfl⟩

/-- C3 (witness): the amended claim evaluated at the stale snapshot. -/
theorem C3_witness :
    (staleData.active = false ∨ staleData.hands_count = 0) ∧
    (integrateFrame staleData (0, 0)).hand_pos = none ∧
    (GameCard.update card0 (0, 0) (integrateFrame staleData (0, 0)).hand_pos
        (integrateFrame staleData (0, 0)).hand_pinching).hand_activated = false :=
  ⟨Or.inl (by decide),
    (C3_amended staleData (0, 0) (Or.inl (by decide))).1,
    ((C3_amended staleData (0, 0) (Or.inl (by decide))).2.2 card0).1⟩

/-- C4 (counterexample): after a tracking callback that reported one hand,
an exception raised inside the acquisition loop is caught and the loop
exits, but the shared snapshot still has active=true afterwards — it is not
reset to false, so consumers do not fall back on staleness alone. -/
theorem C4_counterexample :
    ¬ ((tracking_loop {}
        [LoopEvent.tracking [{ palm := ⟨0, 0, 0⟩, digits := [] }],
         LoopEvent.raise "device error"]).active = false) := by decide

/-- C4 (amended): an exception raised while the bridge is open is caught
(the loop function returns normally on every event list — no crash), the
loop processes no event after the exception and never reconnects, and the
shared snapshot is left exactly as the callbacks before the exception
published it — in particular `active` keeps its prior value instead of
being reset to false. -/
theorem C4_amended (d : HandData) (pre : List (List Hand)) (msg : String)
    (post : List LoopEvent) :
    tracking_loop d (pre.map LoopEvent.tracking ++ LoopEvent.raise msg :: post)
      = pre.foldl on_tracking_event d := by
  induction pre generalizing d with
  | nil => rfl
  | cons hs rest ih => simpa [tracking_loop] using ih (on_tracking_event d hs)

/-- C5 (counterexample): a callback reporting zero hands leaves the snapshot
with active=true, not active=false. -/
theorem C5_counterexample :
    ¬ ((on_tracking_event {} []).active = false) := by decide

/-- C5 (amended): every tracking callback sets active=true, for zero hands
too; a zero-hands callback publishes handCount=0 and pinching=false with the
previous coordinates retained, so "tracking in use" is signalled downstream
by active together with handCount > 0, not by active alone. -/
theorem C5_amended (d : HandData) :
    (on_tracking_event d []).active = true ∧
    (on_tracking_event d []).hands_count = 0 ∧
    (on_tracking_event d []).pinching = false ∧
    (on_tracking_event d []).x = d.x ∧
    (on_tracking_event d []).y = d.y := by
  refine ⟨rfl, rfl, rfl, rfl, rfl⟩

/-- C6: for every device-space palm position received in a callback that
reports at least one hand, the published screen coordinates satisfy
0 ≤ x ≤ 1200 and 0 ≤ y ≤ 800 after the remap-and-clamp step. -/
theorem C6_clamped (d : HandData) (hand : Hand) (rest : List Hand) :
    0 ≤ (on_tracking_event d (hand :: rest)).x ∧
    (on_tracking_event d (hand :: rest)).x ≤ WINDOW_WIDTH ∧
    0 ≤ (on_tracking_event d (hand :: rest)).y ∧
    (on_tracking_event d (hand :: rest)).y ≤ WINDOW_HEIGHT := by
  simp only [on_tracking_event, WINDOW_WIDTH, WINDOW_HEIGHT]
  omega

/-- C7: for every callback reporting a hand with at least two digits, the
published pinching flag is true exactly when the Euclidean device-space
distance between thumb tip and index tip is strictly below the threshold 30
(distance exactly 30 classifies as not pinching); with fewer than two digits
the flag is false. -/
theorem C7_pinch_strict (d : HandData) (palm thumb index : Vec3)
    (restD : List Vec3) (restH : List Hand) :
    ((on_tracking_event d
        ({ palm := palm, digits := thumb :: index :: restD } :: restH)).pinching = true
      ↔ Real.sqrt ((sqDist thumb index : ℚ) : ℝ) < ((HAND_PINCH_THRESHOLD : ℚ) : ℝ)) ∧
    (∀ digits : List Vec3, digits.length < 2 →
      (on_tracking_event d
        ({ palm := palm, digits := digits } :: restH)).pinching = false) := by
  constructor
  · show pinchClassify (thumb :: index :: restD) = true ↔ _
    rw [Real.sqrt_lt' (by norm_num [HAND_PINCH_THRESHOLD])]
    simp only [pinchClassify, decide_eq_true_eq]
    constructor
    · intro hlt
      exact_mod_cast hlt
    · intro hlt
      exact_mod_cast hlt
  · intro digits hlen
    show pinchClassify digits = false
    match digits, hlen with
    | [], _ => rfl
    | [v], _ => rfl

/-- C7 (witness): the fewer-than-two-digits clause evaluated at a concrete
one-digit callback. -/
theorem C7_witness :
    ([(⟨0, 0, 0⟩ : Vec3)].length < 2) ∧
    (on_tracking_event {}
      [{ palm := ⟨0, 0, 0⟩, digits := [⟨0, 0, 0⟩] }]).pinching = false :=
  ⟨by decide,
    (C7_pinch_strict {} ⟨0, 0, 0⟩ ⟨0, 0, 0⟩ ⟨0, 0, 0⟩ [] []).2
      [⟨0, 0, 0⟩] (by decide)⟩

/-- C8 (counterexample): calling start a second time on an already started
tracker does not leave the engine in the same state as one call — it spawns
a second acquisition thread. -/
theorem C8_counterexample :
    HandTracker.start (HandTracker.start {}) ≠ HandTracker.start {} ∧
    (HandTracker.start (HandTracker.start {})).spawned = 2 ∧
    (HandTracker.start {}).spawned = 1 := by decide

/-- C8 (amended): stop is idempotent — a second stop on an already stopped
tracker leaves the state unchanged — but start is not: each start call
spawns one more acquisition thread, so a second start on a started tracker
creates a second thread rather than leaving the state as one call left it. -/
theorem C8_amended (t : HandTracker) :
    HandTracker.stop (HandTracker.stop t) = HandTracker.stop t ∧
    (HandTracker.start (HandTracker.start t)).spawned = t.spawned + 2 := by
  exact ⟨rfl, rfl⟩

/-- C9 (counterexample): the publish of one callback is not an atomic
whole-record swap: a reader that interleaves after the second field write of
a concrete one-hand callback observes the new callback's hands_count (1,
replacing the previous 2) together with the previous callback's coordinates
and still-true pinching flag — a torn snapshot equal to neither the
previous record nor the final one. -/
theorem C9_counterexample :
    observeAfter beforeData [handRightEdge] 2 ≠ beforeData ∧
    observeAfter beforeData [handRightEdge] 2
        ≠ on_tracking_event beforeData [handRightEdge] ∧
    (observeAfter beforeData [handRightEdge] 2).hands_count
        = (on_tracking_event beforeData [handRightEdge]).hands_count ∧
    (observeAfter beforeData [handRightEdge] 2).pinching = beforeData.pinching ∧
    (observeAfter beforeData [handRightEdge] 2).x = beforeData.x ∧
    (observeAfter beforeData [handRightEdge] 2).y = beforeData.y := by
  refine ⟨by decide, ?_, rfl, rfl, rfl, rfl⟩
  intro hcontra
  exact absurd (congrArg HandData.pinching hcontra) (by decide)

/-- C9 (amended): a callback with at least one hand publishes through seven
sequential in-place field writes whose total effect equals the snapshot
update; a reader interleaving after the sixth write observes the new
coordinates and counters combined with the old pinching flag — a mixed
snapshot, which an atomic whole-record swap would make impossible. -/
theorem C9_amended (d : HandData) (hand : Hand) (rest : List Hand) :
    (eventWrites (hand :: rest)).foldl applyWrite d
        = on_tracking_event d (hand :: rest) ∧
    (eventWrites (hand :: rest)).length = 7 ∧
    observeAfter d (hand :: rest) 6
        = { on_tracking_event d (hand :: rest) with pinching := d.pinching } := by
  exact ⟨rfl, rfl, rfl⟩

/-- C10: noninterference of the pinch flag when no hand position is
supplied: updating an AnimatedButton or a GameCard with hand position None
yields literally the same resulting state whether the pinching argument is
true or false, and in that state the activation flag is false and the hover
accumulator is zero — a stale pinching flag can never trigger a control
while tracking supplies no position. -/
theorem C10_noninterference (b : AnimatedButton) (c : GameCard) (m : ℤ × ℤ)
    (p1 p2 : Bool) :
    AnimatedButton.update b m none p1 = AnimatedButton.update b m none p2 ∧
    (AnimatedButton.update b m none p1).hand_activated = false ∧
    (AnimatedButton.update b m none p1).hand_hover_time = 0 ∧
    GameCard.update c m none p1 = GameCard.update c m none p2 ∧
    (GameCard.update c m none p1).hand_activated = false ∧
    (GameCard.update c m none p1).hand_hover_time = 0 := by
  exact ⟨rfl, rfl, rfl, rfl, rfl, rfl⟩

end LeapGame
